import Mathlib

/-!
Verification of the RunAnywhere commons bridge (LoRA registry and JNI layer).

Shallow embedding of `lora_registry.cpp` and the relevant parts of
`runanywhere_commons_jni.cpp`.  C strings (`char*`) are modelled as
`Option String` (`none` = null pointer); UTF-8 byte-for-byte equality of two
non-null C strings coincides with `String` equality in this model.  The
`compatible_model_ids` array plus its `compatible_model_count` are modelled as
`Option (List (Option String))`: `none` is a null array pointer (the count is
never read through a null pointer anywhere in the source), and a `some l`
carries `compatible_model_count = l.length` elements, each itself nullable.
`int64_t`/`int` fields become `Int`; the `float default_scale` and
`tokens_per_second` fields are only ever copied bit-for-bit, so they are
modelled as their 32-bit pattern (`Nat`).

Allocation failure is modelled by an explicit allocator oracle: a list of
booleans consumed one per allocation attempt, where `false` means "this
allocation fails" and running past the end of the list means every further
allocation succeeds.  `[]` is the always-succeeding allocator.
-/

/-- Result codes from `rac_error.h` used by the functions under verification. -/
inductive RacResult where
  | success
  | errInvalidArgument
  | errInvalidHandle
  | errNotFound
  | errOutOfMemory
  | errAdapterNotSet
  | errFileNotFound
  | errFileWriteFailed
  | errStorageError
  | errNotInitialized
  deriving DecidableEq, Repr

/-- `rac_bool_t` (RAC_FALSE / RAC_TRUE). -/
inductive RacBool where
  | racFalse
  | racTrue
  deriving DecidableEq, Repr

/-- `rac_lora_entry_t` from `rac_lora_registry.h`.  All `char*` fields are
nullable; `compatible_model_ids` is a nullable array of nullable strings whose
length is `compatible_model_count`; `default_scale` is kept as its float bit
pattern since the registry only copies it. -/
structure LoraEntry where
  id : Option String
  name : Option String
  description : Option String
  download_url : Option String
  filename : Option String
  compatible_model_ids : Option (List (Option String))
  file_size : Int
  default_scale : Nat
  deriving DecidableEq, Repr

/-- The sequence of ids an entry's `compatible_model_ids` array denotes: a null
array pointer and a zero-length array both denote the empty sequence. -/
def LoraEntry.modelIdsList (e : LoraEntry) : List (Option String) :=
  match e.compatible_model_ids with
  | none => []
  | some l => l

/-- Allocator oracle: each allocation attempt consumes the head (`false` =
fail); an exhausted oracle always succeeds. -/
abbrev Alloc := List Bool

/-- One allocation attempt against the oracle. -/
def allocStep : Alloc → Bool × Alloc
  | [] => (true, [])
  | b :: r => (b, r)

/-- Modelled from the spec: `rac_strdup` (the commons string duplicator used by
`deep_copy_lora_entry`) is not under `src/`; per the deep-copy protocol it
returns null for a null input without allocating, and otherwise performs one
allocation, yielding a byte-identical duplicate on success and null on
out-of-memory. -/
def rac_strdup (a : Alloc) (s : Option String) : Option String × Alloc :=
  match s with
  | none => (none, a)
  | some v =>
    match allocStep a with
    | (ok, a1) => (if ok then some v else none, a1)

/-- The element-copy loop of `deep_copy_lora_entry` (lines 57-63): duplicate
each element in order, stopping at the first failed duplication of a non-null
element. -/
def dupIds (a : Alloc) : List (Option String) → Option (List (Option String)) × Alloc
  | [] => (some [], a)
  | s :: rest =>
    let d := rac_strdup a s
    if s.isSome && d.1.isNone then (none, d.2)
    else
      let r := dupIds d.2 rest
      match r.1 with
      | none => (none, r.2)
      | some cs => (some (d.1 :: cs), r.2)

/-- `deep_copy_lora_entry` (lora_registry.cpp lines 28-68).  Allocation order
follows the source: the `calloc` of the struct, then the five `rac_strdup`
calls, then (for a non-null, non-empty array) the `calloc` of the pointer
array followed by one `rac_strdup` per element.  Any failure frees the partial
copy and yields `none`. -/
def deep_copy_lora_entry (a : Alloc) (src : LoraEntry) : Option LoraEntry × Alloc :=
  let r0 := allocStep a
  if !r0.1 then (none, r0.2)
  else
    let d1 := rac_strdup r0.2 src.id
    let d2 := rac_strdup d1.2 src.name
    let d3 := rac_strdup d2.2 src.description
    let d4 := rac_strdup d3.2 src.download_url
    let d5 := rac_strdup d4.2 src.filename
    if (src.id.isSome && d1.1.isNone) || (src.name.isSome && d2.1.isNone) ||
        (src.description.isSome && d3.1.isNone) ||
        (src.download_url.isSome && d4.1.isNone) ||
        (src.filename.isSome && d5.1.isNone) then (none, d5.2)
    else
      match src.compatible_model_ids with
      | some l =>
        if 0 < l.length then
          let r6 := allocStep d5.2
          if !r6.1 then (none, r6.2)
          else
            let d7 := dupIds r6.2 l
            match d7.1 with
            | none => (none, d7.2)
            | some cl =>
              (some { id := d1.1, name := d2.1, description := d3.1,
                      download_url := d4.1, filename := d5.1,
                      compatible_model_ids := some cl,
                      file_size := src.file_size,
                      default_scale := src.default_scale }, d7.2)
        else
          (some { id := d1.1, name := d2.1, description := d3.1,
                  download_url := d4.1, filename := d5.1,
                  compatible_model_ids := none,
                  file_size := src.file_size,
                  default_scale := src.default_scale }, d5.2)
      | none =>
        (some { id := d1.1, name := d2.1, description := d3.1,
                download_url := d4.1, filename := d5.1,
                compatible_model_ids := none,
                file_size := src.file_size,
                default_scale := src.default_scale }, d5.2)

/-- The pure value a fully successful deep copy produces: all fields are
byte-identical; a null or zero-length `compatible_model_ids` array comes out
as a null array (the copy's struct is `calloc`ed and the array branch is only
taken for a non-null, non-empty source array). -/
def dcopy (e : LoraEntry) : LoraEntry :=
  { e with compatible_model_ids :=
      match e.compatible_model_ids with
      | some l => if 0 < l.length then some l else none
      | none => none }

/-- The registry map `std::map<std::string, rac_lora_entry_t*>`, as an
association list with (in any reachable state) at most one pair per key. -/
abbrev Registry := List (String × LoraEntry)

/-- `std::map::find` followed by dereference. -/
def lookupEntry (reg : Registry) (k : String) : Option LoraEntry :=
  match reg with
  | [] => none
  | p :: r => if p.1 == k then some p.2 else lookupEntry r k

/-- `handle->entries[adapter_id] = copy`: replace the entry under the key if
present, otherwise add one. -/
def mapInsert (reg : Registry) (k : String) (v : LoraEntry) : Registry :=
  match reg with
  | [] => [(k, v)]
  | p :: r => if p.1 == k then (k, v) :: r else p :: mapInsert r k v

/-- Number of pairs stored under a key. -/
def countKey (k : String) : Registry → Nat
  | [] => 0
  | p :: r => (if p.1 == k then 1 else 0) + countKey k r

/-- `rac_lora_registry_register` (lora_registry.cpp lines 107-120).  The entry
pointer is `Option` (`none` = null argument); a null handle is outside the
model since the registry state itself is the argument.  Returns the result
code, the registry state after the call, and the advanced allocator. -/
def rac_lora_registry_register (a : Alloc) (reg : Registry) (entry : Option LoraEntry) :
    RacResult × Registry × Alloc :=
  match entry with
  | none => (.errInvalidArgument, reg, a)
  | some e =>
    match e.id with
    | none => (.errInvalidArgument, reg, a)
    | some adapter_id =>
      match deep_copy_lora_entry a e with
      | (none, a1) => (.errOutOfMemory, reg, a1)
      | (some copy, a1) => (.success, mapInsert reg adapter_id copy, a1)

/-- `rac_lora_registry_get` (lora_registry.cpp lines 187-196): look the id up
and hand back a deep copy. -/
def rac_lora_registry_get (a : Alloc) (reg : Registry) (adapter_id : String) :
    RacResult × Option LoraEntry × Alloc :=
  match lookupEntry reg adapter_id with
  | none => (.errNotFound, none, a)
  | some e =>
    match deep_copy_lora_entry a e with
    | (none, a1) => (.errOutOfMemory, none, a1)
    | (some c, a1) => (.success, some c, a1)

-- ===========================================================================
-- Basic lemmas about the deep-copy protocol
-- ===========================================================================

theorem rac_strdup_nil (s : Option String) : rac_strdup [] s = (s, []) := by
  cases s <;> rfl

theorem dupIds_nil (l : List (Option String)) : dupIds [] l = (some l, []) := by
  induction l with
  | nil => rfl
  | cons s rest ih =>
    cases s <;> simp [dupIds, rac_strdup, allocStep, ih]

theorem deep_copy_nil (e : LoraEntry) :
    deep_copy_lora_entry [] e = (some (dcopy e), []) := by
  obtain ⟨id, name, desc, url, fn, cmi, fs, ds⟩ := e
  cases id <;> cases name <;> cases desc <;> cases url <;> cases fn <;>
    cases cmi with
    | none =>
      simp [deep_copy_lora_entry, rac_strdup, allocStep, dcopy]
    | some l =>
      rcases Nat.eq_zero_or_pos l.length with hl | hl
      · simp_all [deep_copy_lora_entry, rac_strdup, allocStep, dcopy,
          List.length_eq_zero.mp hl]
      · simp_all [deep_copy_lora_entry, rac_strdup, allocStep, dcopy, dupIds_nil,
          Nat.pos_iff_ne_zero]

/-- If the post-copy null check passes for a field, the duplicated field is
byte-identical to the source field. -/
theorem rac_strdup_passed (a : Alloc) (s : Option String)
    (hchk : (s.isSome && (rac_strdup a s).1.isNone) = false) : (rac_strdup a s).1 = s := by
  cases s with
  | none => rfl
  | some v =>
    rw [rac_strdup]
    rw [rac_strdup] at hchk
    cases hs : allocStep a with
    | mk ok a2 =>
      rw [hs] at hchk
      cases ok with
      | true => simp
      | false => simp at hchk

/-- Splitting a failed boolean disjunction. -/
theorem bor_false {b1 b2 : Bool} (h : (b1 || b2) = false) : b1 = false ∧ b2 = false := by
  cases b1 <;> cases b2 <;> simp_all

/-- A pair whose first component is known is that component paired with its
second component. -/
theorem prod_fst_eq {A B : Type} (p : A × B) (x : A) (h : p.1 = x) : p = (x, p.2) := by
  rw [← h]

theorem dupIds_some {a a2 : Alloc} {l cl : List (Option String)}
    (h : dupIds a l = (some cl, a2)) : cl = l := by
  induction l generalizing a cl a2 with
  | nil =>
    rw [dupIds] at h
    injection h with h1 h2
    injection h1 with h1
    exact h1.symm
  | cons s rest ih =>
    rw [dupIds] at h
    dsimp only at h
    by_cases hchk : (s.isSome && (rac_strdup a s).1.isNone) = true
    · rw [if_pos hchk] at h
      simp at h
    · rw [if_neg hchk] at h
      have hchk' : (s.isSome && (rac_strdup a s).1.isNone) = false := by
        revert hchk
        cases s.isSome && (rac_strdup a s).1.isNone <;> simp
      cases hr : (dupIds (rac_strdup a s).2 rest).1 with
      | none => rw [hr] at h; simp at h
      | some cs =>
        rw [hr] at h
        injection h with h1 h2
        injection h1 with h1
        have hrest : dupIds (rac_strdup a s).2 rest =
            (some cs, (dupIds (rac_strdup a s).2 rest).2) := prod_fst_eq _ _ hr
        rw [← h1, rac_strdup_passed a s hchk', ih hrest]

/-- A successful deep copy, under any allocator, is exactly `dcopy src`: every
field byte-identical, a null/empty source array normalised to a null array. -/
theorem deep_copy_eq {a a1 : Alloc} {src c : LoraEntry}
    (h : deep_copy_lora_entry a src = (some c, a1)) : c = dcopy src := by
  rw [deep_copy_lora_entry] at h
  dsimp only at h
  split at h
  · simp at h
  · split at h
    · simp at h
    · rename_i h0 hchk
      have hb := Bool.eq_false_iff.mpr hchk
      obtain ⟨hb2, e5⟩ := bor_false hb
      obtain ⟨hb3, e4⟩ := bor_false hb2
      obtain ⟨hb4, e3⟩ := bor_false hb3
      obtain ⟨e1, e2⟩ := bor_false hb4
      have g1 := rac_strdup_passed _ _ e1
      have g2 := rac_strdup_passed _ _ e2
      have g3 := rac_strdup_passed _ _ e3
      have g4 := rac_strdup_passed _ _ e4
      have g5 := rac_strdup_passed _ _ e5
      split at h
      · rename_i l hcmi
        split at h
        · rename_i hl
          split at h
          · simp at h
          · rename_i h6
            split at h
            · rename_i hd
              simp at h
            · rename_i cl hd
              obtain rfl := dupIds_some (prod_fst_eq _ _ hd)
              simp only [Prod.mk.injEq, Option.some.injEq] at h
              obtain ⟨hc, -⟩ := h
              rw [← hc, g1, g2, g3, g4, g5]
              simp [dcopy, hcmi, hl]
        · rename_i hl
          simp only [Prod.mk.injEq, Option.some.injEq] at h
          obtain ⟨hc, -⟩ := h
          rw [← hc, g1, g2, g3, g4, g5]
          simp [dcopy, hcmi, hl]
      · rename_i hcmi
        simp only [Prod.mk.injEq, Option.some.injEq] at h
        obtain ⟨hc, -⟩ := h
        rw [← hc, g1, g2, g3, g4, g5]
        simp [dcopy, hcmi]

theorem modelIdsList_dcopy (e : LoraEntry) :
    (dcopy e).modelIdsList = e.modelIdsList := by
  cases h : e.compatible_model_ids with
  | none => simp [dcopy, LoraEntry.modelIdsList, h]
  | some l =>
    by_cases hl : 0 < l.length
    · simp [dcopy, LoraEntry.modelIdsList, h, if_pos hl]
    · have : l = [] := List.length_eq_zero.mp (Nat.eq_zero_of_not_pos hl)
      simp [dcopy, LoraEntry.modelIdsList, h, if_neg hl, this]

-- ===========================================================================
-- C1: register returning out-of-memory leaves the registry untouched
-- ===========================================================================

/-- C1. If `rac_lora_registry_register` returns out-of-memory (the deep copy
failed at some allocation), the registry mapping is byte-for-byte unchanged;
in particular a subsequent `get` on any id — including the entry's own id —
returns exactly what it returned before the failed call, so the previously
registered entry under that id (if any) is still present and readable, and no
partially-built copy is retained in the mapping. -/
theorem register_oom_leaves_registry_unchanged (a : Alloc) (reg : Registry) (e : LoraEntry)
    (hoom : (rac_lora_registry_register a reg (some e)).1 = .errOutOfMemory) :
    (rac_lora_registry_register a reg (some e)).2.1 = reg ∧
    ∀ x, rac_lora_registry_get [] (rac_lora_registry_register a reg (some e)).2.1 x =
        rac_lora_registry_get [] reg x := by
  rw [rac_lora_registry_register] at hoom ⊢
  revert hoom
  rcases hid : e.id with _ | adapter_id
  · intro hoom
    simp at hoom
  · rcases hc : deep_copy_lora_entry a e with ⟨oc, a1⟩
    rcases oc with _ | copy
    · intro hoom
      exact ⟨rfl, fun _ => rfl⟩
    · intro hoom
      simp at hoom

/-- Concrete run of C1: a registry holding an entry under "l1", a register of a
replacement under "l1" whose very first allocation fails; the mapping and the
result of `get "l1"` are untouched. -/
def wEntryOld : LoraEntry :=
  { id := some "l1", name := some "old", description := none, download_url := none,
    filename := none, compatible_model_ids := some [some "mA"], file_size := 7,
    default_scale := 1050253722 }

def wEntryNew : LoraEntry :=
  { id := some "l1", name := some "new", description := some "d", download_url := none,
    filename := none, compatible_model_ids := some [some "mB"], file_size := 9,
    default_scale := 1060320051 }

def wReg : Registry := [("l1", wEntryOld)]

theorem register_oom_leaves_registry_unchanged_witness :
    (rac_lora_registry_register [false] wReg (some wEntryNew)).2.1 = wReg ∧
    ∀ x, rac_lora_registry_get [] (rac_lora_registry_register [false] wReg (some wEntryNew)).2.1 x =
        rac_lora_registry_get [] wReg x :=
  register_oom_leaves_registry_unchanged [false] wReg wEntryNew (by rfl)

-- ===========================================================================
-- C2 / C9: get_for_model and its match semantics
-- ===========================================================================

/-- The match loop of `rac_lora_registry_get_for_model` (lines 162-171): an
entry matches when its array pointer is non-null and some non-null element
compares byte-equal (`strcmp == 0`) to `model_id`; the `break` makes each
stored entry contribute at most once however many elements match. -/
def entryMatches (model_id : String) (e : LoraEntry) : Bool :=
  match e.compatible_model_ids with
  | none => false
  | some l => l.any (fun o => match o with | none => false | some s => s == model_id)

/-- The output-array build loop of `rac_lora_registry_get_for_model`
(lines 176-183): deep copy each matched entry in order; the first failed copy
frees everything built so far and aborts. -/
def copyEntries (a : Alloc) : List LoraEntry → Option (List LoraEntry) × Alloc
  | [] => (some [], a)
  | e :: rest =>
    let d := deep_copy_lora_entry a e
    match d.1 with
    | none => (none, d.2)
    | some c =>
      let r := copyEntries d.2 rest
      match r.1 with
      | none => (none, r.2)
      | some cs => (some (c :: cs), r.2)

/-- `rac_lora_registry_get_for_model` (lora_registry.cpp lines 156-185).
Returns (result, out_entries, out_count, allocator).  On the failed malloc of
the output array the source has already stored the match count in
`*out_count` and leaves `*out_entries` unwritten (modelled `none`); a failed
element copy resets both outputs. -/
def rac_lora_registry_get_for_model (a : Alloc) (reg : Registry) (model_id : String) :
    RacResult × Option (List LoraEntry) × Nat × Alloc :=
  let ms := (reg.filter (fun p => entryMatches model_id p.2)).map Prod.snd
  if ms.length = 0 then (.success, none, 0, a)
  else
    let r1 := allocStep a
    if !r1.1 then (.errOutOfMemory, none, ms.length, r1.2)
    else
      let d := copyEntries r1.2 ms
      match d.1 with
      | none => (.errOutOfMemory, none, 0, d.2)
      | some cs => (.success, some cs, ms.length, d.2)

theorem dcopy_fix_of_matches {m : String} {e : LoraEntry}
    (h : entryMatches m e = true) : dcopy e = e := by
  obtain ⟨id, name, desc, url, fn, cmi, fs, ds⟩ := e
  cases cmi with
  | none => simp [entryMatches] at h
  | some l =>
    cases l with
    | nil => simp [entryMatches] at h
    | cons x xs => simp [dcopy]

theorem entryMatches_iff (m : String) (e : LoraEntry) :
    entryMatches m e = true ↔ some m ∈ e.modelIdsList := by
  obtain ⟨id, name, desc, url, fn, cmi, fs, ds⟩ := e
  cases cmi with
  | none => simp [entryMatches, LoraEntry.modelIdsList]
  | some l =>
    simp only [entryMatches, LoraEntry.modelIdsList, List.any_eq_true]
    constructor
    · rintro ⟨o, ho, hmatch⟩
      cases o with
      | none => simp at hmatch
      | some s =>
        obtain rfl : s = m := by simpa using hmatch
        exact ho
    · intro hm
      exact ⟨some m, hm, by simp⟩

theorem copyEntries_nil {l : List LoraEntry} (hfix : ∀ e ∈ l, dcopy e = e) :
    copyEntries [] l = (some l, []) := by
  induction l with
  | nil => rfl
  | cons e rest ih =>
    have he : dcopy e = e := hfix e (List.mem_cons_self e rest)
    have hrest := ih (fun x hx => hfix x (List.mem_cons_of_mem e hx))
    rw [copyEntries]
    dsimp only
    rw [deep_copy_nil e]
    dsimp only
    rw [hrest]
    dsimp only
    rw [he]

/-- C2. With allocations succeeding, `get_for_model` returns `success` and
exactly the matched registry entries — those with some `compatible_model_ids`
element byte-equal to the model id — each stored entry contributing at most
once (the loop breaks after the first matching element); no match yields a
null pointer and count 0 with `success`. -/
theorem get_for_model_returns_exact_matches (reg : Registry) (m : String) :
    (rac_lora_registry_get_for_model [] reg m =
      (.success,
       if ((reg.filter (fun p => entryMatches m p.2)).map Prod.snd).length = 0 then none
       else some ((reg.filter (fun p => entryMatches m p.2)).map Prod.snd),
       ((reg.filter (fun p => entryMatches m p.2)).map Prod.snd).length, [])) ∧
    ∀ e, entryMatches m e = true ↔ some m ∈ e.modelIdsList := by
  constructor
  · have hfix : ∀ e ∈ (reg.filter (fun p => entryMatches m p.2)).map Prod.snd,
        dcopy e = e := by
      intro e he
      simp only [List.mem_map] at he
      obtain ⟨p, hp, rfl⟩ := he
      have hpm : entryMatches m p.2 = true := by
        simpa using (List.mem_filter.mp hp).2
      exact dcopy_fix_of_matches hpm
    rw [rac_lora_registry_get_for_model]
    dsimp only
    by_cases hms : ((reg.filter (fun p => entryMatches m p.2)).map Prod.snd).length = 0
    · rw [if_pos hms, if_pos hms, hms]
    · rw [if_neg hms, if_neg hms]
      simp [allocStep, copyEntries_nil hfix]
  · exact entryMatches_iff m

def wl1 : LoraEntry :=
  { id := some "l1", name := some "alpha", description := none, download_url := none,
    filename := some "a.gguf", compatible_model_ids := some [some "mA", some "mB"],
    file_size := 11, default_scale := 1050253722 }

def wl2 : LoraEntry :=
  { id := some "l2", name := none, description := none, download_url := none,
    filename := none, compatible_model_ids := some [some "mB"],
    file_size := 0, default_scale := 0 }

def wReg2 : Registry := [("l1", wl1), ("l2", wl2)]

theorem get_for_model_returns_exact_matches_witness :
    rac_lora_registry_get_for_model [] wReg2 "mB" = (.success, some [wl1, wl2], 2, []) := by
  rw [(get_for_model_returns_exact_matches wReg2 "mB").1]
  rfl

-- ===========================================================================
-- C3: register twice under one id, then get
-- ===========================================================================

theorem lookupEntry_mapInsert_self (reg : Registry) (k : String) (v : LoraEntry) :
    lookupEntry (mapInsert reg k v) k = some v := by
  induction reg with
  | nil => simp [mapInsert, lookupEntry]
  | cons p r ih =>
    by_cases hp : (p.1 == k) = true
    · simp [mapInsert, hp, lookupEntry]
    · simp [mapInsert, hp, lookupEntry, ih]

theorem countKey_mapInsert (reg : Registry) (k : String) (v : LoraEntry) :
    countKey k (mapInsert reg k v) =
      if countKey k reg = 0 then 1 else countKey k reg := by
  induction reg with
  | nil => simp [mapInsert, countKey]
  | cons p r ih =>
    by_cases hp : (p.1 == k) = true
    · simp [mapInsert, hp, countKey]
    · simp [mapInsert, hp, countKey, ih]

theorem register_nil (reg : Registry) (e : LoraEntry) (aid : String)
    (hid : e.id = some aid) :
    rac_lora_registry_register [] reg (some e) =
      (.success, mapInsert reg aid (dcopy e), []) := by
  simp [rac_lora_registry_register, hid, deep_copy_nil]

theorem get_nil_found {reg : Registry} {aid : String} {v : LoraEntry}
    (h : lookupEntry reg aid = some v) :
    rac_lora_registry_get [] reg aid = (.success, some (dcopy v), []) := by
  simp [rac_lora_registry_get, h, deep_copy_nil]

/-- C3. Registering `e` and then `e1` under the same id (both with succeeding
allocations) leaves exactly one entry stored under that id, and a subsequent
`get` returns a record agreeing with `e1` on every field — the strings, the
`compatible_model_ids` sequence, `file_size` and `default_scale`. -/
theorem register_register_get (reg : Registry) (e e1 : LoraEntry) (aid : String)
    (hcnt : countKey aid reg ≤ 1) (hid : e.id = some aid) (hid1 : e1.id = some aid) :
    (rac_lora_registry_register [] reg (some e)).1 = .success ∧
    (rac_lora_registry_register []
        (rac_lora_registry_register [] reg (some e)).2.1 (some e1)).1 = .success ∧
    countKey aid
        (rac_lora_registry_register []
          (rac_lora_registry_register [] reg (some e)).2.1 (some e1)).2.1 = 1 ∧
    ∃ v, rac_lora_registry_get []
          (rac_lora_registry_register []
            (rac_lora_registry_register [] reg (some e)).2.1 (some e1)).2.1 aid =
          (.success, some v, []) ∧
        v.id = e1.id ∧ v.name = e1.name ∧ v.description = e1.description ∧
        v.download_url = e1.download_url ∧ v.filename = e1.filename ∧
        v.modelIdsList = e1.modelIdsList ∧ v.file_size = e1.file_size ∧
        v.default_scale = e1.default_scale := by
  rw [register_nil reg e aid hid]
  dsimp only
  rw [register_nil (mapInsert reg aid (dcopy e)) e1 aid hid1]
  dsimp only
  refine ⟨rfl, rfl, ?_, ?_⟩
  · rw [countKey_mapInsert, countKey_mapInsert]
    rcases Nat.le_one_iff_eq_zero_or_eq_one.mp hcnt with h0 | h0 <;> simp [h0]
  · refine ⟨dcopy (dcopy e1), get_nil_found (lookupEntry_mapInsert_self _ _ _),
      rfl, rfl, rfl, rfl, rfl, ?_, rfl, rfl⟩
    rw [modelIdsList_dcopy, modelIdsList_dcopy]

theorem register_register_get_witness :
    (rac_lora_registry_register [] wReg (some wEntryOld)).1 = .success ∧
    (rac_lora_registry_register []
        (rac_lora_registry_register [] wReg (some wEntryOld)).2.1 (some wEntryNew)).1 =
      .success ∧
    countKey "l1"
        (rac_lora_registry_register []
          (rac_lora_registry_register [] wReg (some wEntryOld)).2.1
          (some wEntryNew)).2.1 = 1 ∧
    ∃ v, rac_lora_registry_get []
          (rac_lora_registry_register []
            (rac_lora_registry_register [] wReg (some wEntryOld)).2.1
            (some wEntryNew)).2.1 "l1" =
          (.success, some v, []) ∧
        v.id = wEntryNew.id ∧ v.name = wEntryNew.name ∧
        v.description = wEntryNew.description ∧
        v.download_url = wEntryNew.download_url ∧ v.filename = wEntryNew.filename ∧
        v.modelIdsList = wEntryNew.modelIdsList ∧ v.file_size = wEntryNew.file_size ∧
        v.default_scale = wEntryNew.default_scale :=
  register_register_get wReg wEntryOld wEntryNew "l1" (by decide) (by rfl) (by rfl)

-- ===========================================================================
-- C9: null elements inside compatible_model_ids are preserved and skipped
-- ===========================================================================

/-- C9. A successful deep copy (any allocator) reproduces the
`compatible_model_ids` sequence exactly — every element keeps its null or
non-null status at the same position — and every string field byte-identically;
and the `get_for_model` match predicate holds exactly when some non-null
element equals the model id, so a null element never matches and is skipped
without being dereferenced. -/
theorem deep_copy_preserves_null_elements (a a1 : Alloc) (e c : LoraEntry) (m : String)
    (h : deep_copy_lora_entry a e = (some c, a1)) :
    c.modelIdsList = e.modelIdsList ∧
    c.id = e.id ∧ c.name = e.name ∧ c.description = e.description ∧
    c.download_url = e.download_url ∧ c.filename = e.filename ∧
    c.file_size = e.file_size ∧ c.default_scale = e.default_scale ∧
    (entryMatches m e = true ↔ some m ∈ e.modelIdsList) := by
  obtain rfl := deep_copy_eq h
  exact ⟨modelIdsList_dcopy e, rfl, rfl, rfl, rfl, rfl, rfl, rfl,
    entryMatches_iff m e⟩

def wEntryNulls : LoraEntry :=
  { id := some "l9", name := none, description := none, download_url := none,
    filename := none, compatible_model_ids := some [none, some "mX", none],
    file_size := 3, default_scale := 5 }

theorem deep_copy_preserves_null_elements_witness :
    (dcopy wEntryNulls).modelIdsList = wEntryNulls.modelIdsList ∧
    (dcopy wEntryNulls).id = wEntryNulls.id ∧
    (dcopy wEntryNulls).name = wEntryNulls.name ∧
    (dcopy wEntryNulls).description = wEntryNulls.description ∧
    (dcopy wEntryNulls).download_url = wEntryNulls.download_url ∧
    (dcopy wEntryNulls).filename = wEntryNulls.filename ∧
    (dcopy wEntryNulls).file_size = wEntryNulls.file_size ∧
    (dcopy wEntryNulls).default_scale = wEntryNulls.default_scale ∧
    (entryMatches "mX" wEntryNulls = true ↔ some "mX" ∈ wEntryNulls.modelIdsList) :=
  deep_copy_preserves_null_elements [] [] wEntryNulls (dcopy wEntryNulls) "mX"
    (deep_copy_nil wEntryNulls)

-- ===========================================================================
-- JNI layer: platform adapter install (runanywhere_commons_jni.cpp)
-- ===========================================================================

/-- The managed adapter object's method table as `GetMethodID` sees it: for
each of the nine lookups in `racSetPlatformAdapter` (lines 386-398), `some`
is a resolved `jmethodID` and `none` a failed lookup. -/
structure PlatformAdapterObj where
  log : Option Nat
  fileExists : Option Nat
  fileRead : Option Nat
  fileWrite : Option Nat
  fileDelete : Option Nat
  secureGet : Option Nat
  secureSet : Option Nat
  secureDelete : Option Nat
  nowMs : Option Nat
  deriving DecidableEq, Repr

/-- The JNI adapter globals (lines 80-93, 159): the global adapter reference,
the nine cached method ids, and whether the `g_c_adapter` function-pointer
table has been populated. -/
structure JniAdapterState where
  g_platform_adapter : Option PlatformAdapterObj
  g_method_log : Option Nat
  g_method_file_exists : Option Nat
  g_method_file_read : Option Nat
  g_method_file_write : Option Nat
  g_method_file_delete : Option Nat
  g_method_secure_get : Option Nat
  g_method_secure_set : Option Nat
  g_method_secure_delete : Option Nat
  g_method_now_ms : Option Nat
  vtableInstalled : Bool
  deriving DecidableEq, Repr

/-- `racSetPlatformAdapter` (lines 361-417).  Under the adapter mutex it first
deletes any previous global adapter reference; only then does it reject a
null adapter with invalid-argument.  For a non-null adapter it stores a new
global reference, caches the nine `GetMethodID` results without checking any
of them, populates the `g_c_adapter` function-pointer table and returns
success. -/
def racSetPlatformAdapter (st : JniAdapterState)
    (adapter : Option PlatformAdapterObj) : RacResult × JniAdapterState :=
  let st0 := { st with g_platform_adapter := none }
  match adapter with
  | none => (.errInvalidArgument, st0)
  | some obj =>
    (.success,
      { g_platform_adapter := some obj,
        g_method_log := obj.log, g_method_file_exists := obj.fileExists,
        g_method_file_read := obj.fileRead, g_method_file_write := obj.fileWrite,
        g_method_file_delete := obj.fileDelete, g_method_secure_get := obj.secureGet,
        g_method_secure_set := obj.secureSet, g_method_secure_delete := obj.secureDelete,
        g_method_now_ms := obj.nowMs, vtableInstalled := true })

/-- What the managed `fileRead` returns when it is actually invoked. -/
inductive ManagedBytes where
  | nullArr
  | bytes (n : Nat)
  deriving DecidableEq, Repr

/-- `jni_file_read_callback` (lines 192-217), result code only: with no JNI
env, no installed adapter, or an unresolved method id it returns
adapter-not-set without calling into managed code; otherwise a null managed
result is file-not-found and a byte array is success. -/
def jni_file_read_callback (st : JniAdapterState) (envOk : Bool)
    (managed : ManagedBytes) : RacResult :=
  if !envOk || st.g_platform_adapter.isNone || st.g_method_file_read.isNone then
    .errAdapterNotSet
  else
    match managed with
    | .nullArr => .errFileNotFound
    | .bytes _ => .success

/-- `jni_now_ms_callback` (lines 305-313): the fallback path returns the
system clock (`time(nullptr) * 1000`); otherwise the managed `nowMs` value. -/
def jni_now_ms_callback (st : JniAdapterState) (envOk : Bool)
    (sysTimeSec managedNowMs : Int) : Int :=
  if !envOk || st.g_platform_adapter.isNone || st.g_method_now_ms.isNone then
    sysTimeSec * 1000
  else managedNowMs

/-- C10. Installing a null adapter is not side-effect-free: the previous
global adapter reference is released first, leaving no adapter installed, and
only then is invalid-argument returned; afterwards the adapter callbacks take
their fallback paths (`file_read` reports adapter-not-set, `now_ms` falls
back to the system clock) whatever the cached method ids still hold. -/
theorem set_null_adapter_uninstalls_then_rejects (st : JniAdapterState) :
    racSetPlatformAdapter st none =
      (.errInvalidArgument, { st with g_platform_adapter := none }) ∧
    (∀ envOk managed, jni_file_read_callback { st with g_platform_adapter := none }
        envOk managed = .errAdapterNotSet) ∧
    (∀ envOk t n, jni_now_ms_callback { st with g_platform_adapter := none }
        envOk t n = t * 1000) := by
  refine ⟨rfl, ?_, ?_⟩
  · intro envOk managed
    simp [jni_file_read_callback]
  · intro envOk t n
    simp [jni_now_ms_callback]

def cStateEmpty : JniAdapterState :=
  { g_platform_adapter := none, g_method_log := none, g_method_file_exists := none,
    g_method_file_read := none, g_method_file_write := none,
    g_method_file_delete := none, g_method_secure_get := none,
    g_method_secure_set := none, g_method_secure_delete := none,
    g_method_now_ms := none, vtableInstalled := false }

/-- A managed adapter object whose `log` method cannot be resolved. -/
def cAdapterNoLog : PlatformAdapterObj :=
  { log := none, fileExists := some 2, fileRead := some 3, fileWrite := some 4,
    fileDelete := some 5, secureGet := some 6, secureSet := some 7,
    secureDelete := some 8, nowMs := some 9 }

/-- C5 counterexample: with an adapter object whose `log` lookup fails, the
install still returns success — not invalid-argument — and still populates
the native vtable, because the source never checks the nine `GetMethodID`
results. -/
theorem set_adapter_unresolved_method_counterexample :
    cAdapterNoLog.log = none ∧
    (racSetPlatformAdapter cStateEmpty (some cAdapterNoLog)).1 = .success ∧
    (racSetPlatformAdapter cStateEmpty (some cAdapterNoLog)).2.vtableInstalled = true ∧
    RacResult.success ≠ RacResult.errInvalidArgument :=
  ⟨rfl, rfl, rfl, by decide⟩

/-- C5 amended: with any non-null adapter object the install caches the nine
lookup results unchecked, populates the vtable and returns success; an
unresolved method only surfaces later, when the individual callback finds its
cached id null and takes its fallback path. -/
theorem set_adapter_caches_methods_unchecked (st : JniAdapterState)
    (obj : PlatformAdapterObj) :
    racSetPlatformAdapter st (some obj) =
      (.success,
        { g_platform_adapter := some obj, g_method_log := obj.log,
          g_method_file_exists := obj.fileExists, g_method_file_read := obj.fileRead,
          g_method_file_write := obj.fileWrite, g_method_file_delete := obj.fileDelete,
          g_method_secure_get := obj.secureGet, g_method_secure_set := obj.secureSet,
          g_method_secure_delete := obj.secureDelete, g_method_now_ms := obj.nowMs,
          vtableInstalled := true }) ∧
    (obj.fileRead = none → ∀ envOk managed,
      jni_file_read_callback (racSetPlatformAdapter st (some obj)).2 envOk managed =
        .errAdapterNotSet) := by
  refine ⟨rfl, ?_⟩
  intro hfr envOk managed
  simp [racSetPlatformAdapter, jni_file_read_callback, hfr]

/-- A managed adapter object whose `fileRead` method cannot be resolved. -/
def cAdapterNoFileRead : PlatformAdapterObj :=
  { log := some 1, fileExists := some 2, fileRead := none, fileWrite := some 4,
    fileDelete := some 5, secureGet := some 6, secureSet := some 7,
    secureDelete := some 8, nowMs := some 9 }

theorem set_adapter_caches_methods_unchecked_witness :
    jni_file_read_callback
        (racSetPlatformAdapter cStateEmpty (some cAdapterNoFileRead)).2 true
        ManagedBytes.nullArr = .errAdapterNotSet :=
  (set_adapter_caches_methods_unchecked cStateEmpty cAdapterNoFileRead).2 rfl true
    ManagedBytes.nullArr

-- ===========================================================================
-- JNI layer: streaming token callbacks and the completion wait
-- ===========================================================================

/-- `rac_llm_result_t` metrics carried by the streaming contexts;
`tokens_per_second` is a float bit pattern. -/
structure RacLlmResult where
  completion_tokens : Int
  prompt_tokens : Int
  total_tokens : Int
  total_time_ms : Int
  tokens_per_second : Nat
  deriving DecidableEq, Repr

/-- `LLMStreamContext` (lines 615-625), used by the plain streaming entry
point whose callbacks stay native-side. -/
structure LLMStreamContext where
  accumulated_text : String
  token_count : Int
  is_complete : Bool
  has_error : Bool
  error_code : RacResult
  error_message : String
  final_result : RacLlmResult
  deriving DecidableEq, Repr

/-- `LLMStreamCallbackContext` (lines 691-705); the JVM, callback and
`onToken` method pointers are abstracted to whether each is non-null. -/
structure LLMStreamCallbackContext where
  hasJvm : Bool
  hasCallback : Bool
  hasOnTokenMethod : Bool
  onTokenExpectsBytes : Bool
  accumulated_text : String
  token_count : Int
  is_complete : Bool
  has_error : Bool
  error_code : RacResult
  error_message : String
  final_result : RacLlmResult
  deriving DecidableEq, Repr

/-- The outcome of invoking the managed `onToken` method: the worker thread
failed to attach, the call threw a managed exception, or it returned a
boolean. -/
inductive TokenCallOutcome where
  | attachFails
  | throws
  | returns (continueGen : Bool)
  deriving DecidableEq, Repr

/-- `llm_stream_callback_token` (lines 707-778).  Returns the `rac_bool_t`
handed back to the engine, the context after the call, and whether a pending
managed exception was described and cleared.  The token is accumulated before
the managed call; on a managed throw the source describes and clears the
exception and returns RAC_TRUE, explicitly ignoring the callback's return
value. -/
def llm_stream_callback_token (userDataNull tokenNull : Bool)
    (ctx : LLMStreamCallbackContext) (token : String) (outcome : TokenCallOutcome) :
    RacBool × LLMStreamCallbackContext × Bool :=
  if userDataNull || tokenNull then (.racTrue, ctx, false)
  else
    let ctx1 := { ctx with accumulated_text := ctx.accumulated_text ++ token,
                           token_count := ctx.token_count + 1 }
    if ctx.hasJvm && ctx.hasCallback && ctx.hasOnTokenMethod then
      match outcome with
      | .attachFails => (.racTrue, ctx1, false)
      | .throws => (.racTrue, ctx1, true)
      | .returns c => (if c then .racTrue else .racFalse, ctx1, false)
    else (.racTrue, ctx1, false)

/-- `rac_vlm_result_t` metrics; `tokens_per_second` is a float bit pattern. -/
structure RacVlmResult where
  prompt_tokens : Int
  image_tokens : Int
  completion_tokens : Int
  total_tokens : Int
  time_to_first_token_ms : Int
  image_encode_time_ms : Int
  total_time_ms : Int
  tokens_per_second : Nat
  deriving DecidableEq, Repr

/-- `VLMStreamCallbackContext` (lines 3895-3906). -/
structure VLMStreamCallbackContext where
  hasJvm : Bool
  hasCallback : Bool
  hasOnTokenMethod : Bool
  accumulated_text : String
  token_count : Int
  is_complete : Bool
  has_error : Bool
  error_code : RacResult
  error_message : String
  final_result : RacVlmResult
  deriving DecidableEq, Repr

/-- `vlm_stream_callback_token` (lines 3908-3964): same shape as the LLM
variant, but on a managed throw it clears the exception and returns RAC_FALSE
to stop generation. -/
def vlm_stream_callback_token (userDataNull tokenNull : Bool)
    (ctx : VLMStreamCallbackContext) (token : String) (outcome : TokenCallOutcome) :
    RacBool × VLMStreamCallbackContext × Bool :=
  if userDataNull || tokenNull then (.racTrue, ctx, false)
  else
    let ctx1 := { ctx with accumulated_text := ctx.accumulated_text ++ token,
                           token_count := ctx.token_count + 1 }
    if ctx.hasJvm && ctx.hasCallback && ctx.hasOnTokenMethod then
      match outcome with
      | .attachFails => (.racTrue, ctx1, false)
      | .throws => (.racFalse, ctx1, true)
      | .returns c => (if c then .racTrue else .racFalse, ctx1, false)
    else (.racTrue, ctx1, false)

def cLlmCtx : LLMStreamCallbackContext :=
  { hasJvm := true, hasCallback := true, hasOnTokenMethod := true,
    onTokenExpectsBytes := true, accumulated_text := "", token_count := 0,
    is_complete := false, has_error := false, error_code := .success,
    error_message := "", final_result := ⟨0, 0, 0, 0, 0⟩ }

/-- C4 counterexample: in the LLM token callback a managed throw yields
RAC_TRUE (continue), not the claimed RAC_FALSE (stop). -/
theorem token_callback_exception_counterexample :
    (llm_stream_callback_token false false cLlmCtx "tok" .throws).1 = RacBool.racTrue ∧
    RacBool.racTrue ≠ RacBool.racFalse :=
  ⟨rfl, by decide⟩

/-- C4 amended: both token callbacks catch, describe and clear the managed
exception at the boundary; the VLM callback then returns RAC_FALSE (stop),
but the LLM callback ignores the outcome and returns RAC_TRUE (continue). -/
theorem token_callback_exception_outcomes
    (ctx : LLMStreamCallbackContext) (vctx : VLMStreamCallbackContext) (token : String)
    (h1 : ctx.hasJvm = true) (h2 : ctx.hasCallback = true)
    (h3 : ctx.hasOnTokenMethod = true)
    (g1 : vctx.hasJvm = true) (g2 : vctx.hasCallback = true)
    (g3 : vctx.hasOnTokenMethod = true) :
    (llm_stream_callback_token false false ctx token .throws).1 = .racTrue ∧
    (llm_stream_callback_token false false ctx token .throws).2.2 = true ∧
    (vlm_stream_callback_token false false vctx token .throws).1 = .racFalse ∧
    (vlm_stream_callback_token false false vctx token .throws).2.2 = true := by
  simp [llm_stream_callback_token, vlm_stream_callback_token, h1, h2, h3, g1, g2, g3]

def cVlmCtx : VLMStreamCallbackContext :=
  { hasJvm := true, hasCallback := true, hasOnTokenMethod := true,
    accumulated_text := "", token_count := 0, is_complete := false,
    has_error := false, error_code := .success, error_message := "",
    final_result := ⟨0, 0, 0, 0, 0, 0, 0, 0⟩ }

theorem token_callback_exception_outcomes_witness :
    (llm_stream_callback_token false false cLlmCtx "t" .throws).1 = .racTrue ∧
    (llm_stream_callback_token false false cLlmCtx "t" .throws).2.2 = true ∧
    (vlm_stream_callback_token false false cVlmCtx "t" .throws).1 = .racFalse ∧
    (vlm_stream_callback_token false false cVlmCtx "t" .throws).2.2 = true :=
  token_callback_exception_outcomes cLlmCtx cVlmCtx "t" rfl rfl rfl rfl rfl rfl

/-- A JSON value at a single key of the canonical boundary documents
(`nlohmann::json` object assignment is modelled as key/value pairs). -/
inductive JField where
  | jnull
  | jstr (s : String)
  | jint (n : Int)
  | jbool (b : Bool)
  | jfloat (bits : Nat)
  | jstrarr (l : List String)
  deriving DecidableEq, Repr

/-- The 10-minute bound `std::chrono::minutes(10)` passed to `wait_for`
(lines 895, 1024), in milliseconds. -/
def kStreamWaitTimeoutMinutes : Nat := 10

def kStreamWaitTimeoutMs : Nat := kStreamWaitTimeoutMinutes * 60 * 1000

/-- Outcome of `cv.wait_for(lock, kStreamWaitTimeout, pred)`: either the
predicate `ctx.is_complete` became true within the bound, or the bound
elapsed and `wait_for` returned false — in both cases the wait ends. -/
inductive CvWaitResult where
  | completedWithinTimeout
  | timedOut
  deriving DecidableEq, Repr

/-- The completion wait of `racLlmComponentGenerateStream` (lines 892-901):
on timeout the context is marked errored with the timeout message and
complete; on completion within the bound it is left as the callbacks set
it. -/
def streamWaitForCompletion (ctx : LLMStreamContext) (w : CvWaitResult) :
    LLMStreamContext :=
  match w with
  | .completedWithinTimeout => ctx
  | .timedOut =>
    { ctx with has_error := true,
               error_message := "Streaming timed out waiting for completion callback",
               is_complete := true }

/-- The identical completion wait of `racLlmComponentGenerateStreamWithCallback`
(lines 1021-1030). -/
def streamCallbackWaitForCompletion (ctx : LLMStreamCallbackContext)
    (w : CvWaitResult) : LLMStreamCallbackContext :=
  match w with
  | .completedWithinTimeout => ctx
  | .timedOut =>
    { ctx with has_error := true,
               error_message := "Streaming timed out waiting for completion callback",
               is_complete := true }

/-- What `racLlmComponentGenerateStream` returns after the wait (lines
903-923): null on error, otherwise the result JSON document. -/
def llmGenerateStreamReturn (ctx : LLMStreamContext) :
    Option (List (String × JField)) :=
  if ctx.has_error then none
  else some [("text", .jstr ctx.accumulated_text),
             ("tokens_generated", .jint ctx.final_result.completion_tokens),
             ("tokens_evaluated", .jint ctx.final_result.prompt_tokens),
             ("stop_reason", .jint 0),
             ("total_time_ms", .jint ctx.final_result.total_time_ms),
             ("tokens_per_second", .jfloat ctx.final_result.tokens_per_second)]

/-- What `racLlmComponentGenerateStreamWithCallback` returns after the wait
(lines 1035-1055). -/
def llmGenerateStreamWithCallbackReturn (ctx : LLMStreamCallbackContext) :
    Option (List (String × JField)) :=
  if ctx.has_error then none
  else some [("text", .jstr ctx.accumulated_text),
             ("tokens_generated", .jint ctx.final_result.completion_tokens),
             ("tokens_evaluated", .jint ctx.final_result.prompt_tokens),
             ("stop_reason", .jint 0),
             ("total_time_ms", .jint ctx.final_result.total_time_ms),
             ("tokens_per_second", .jfloat ctx.final_result.tokens_per_second)]

/-- C7. Both streaming entry points bound their condition-variable wait by the
10-minute constant (600000 ms); when the wait ends without a completion the
context is marked errored with the timeout message and complete, and the
entry point reports failure (returns null) instead of blocking on; a
completion within the bound leaves the context untouched. -/
theorem stream_wait_timeout_bounded (ctx : LLMStreamContext)
    (cctx : LLMStreamCallbackContext) :
    kStreamWaitTimeoutMs = 600000 ∧
    streamWaitForCompletion ctx .completedWithinTimeout = ctx ∧
    (streamWaitForCompletion ctx .timedOut).has_error = true ∧
    (streamWaitForCompletion ctx .timedOut).error_message =
      "Streaming timed out waiting for completion callback" ∧
    (streamWaitForCompletion ctx .timedOut).is_complete = true ∧
    llmGenerateStreamReturn (streamWaitForCompletion ctx .timedOut) = none ∧
    streamCallbackWaitForCompletion cctx .completedWithinTimeout = cctx ∧
    (streamCallbackWaitForCompletion cctx .timedOut).has_error = true ∧
    (streamCallbackWaitForCompletion cctx .timedOut).error_message =
      "Streaming timed out waiting for completion callback" ∧
    (streamCallbackWaitForCompletion cctx .timedOut).is_complete = true ∧
    llmGenerateStreamWithCallbackReturn
        (streamCallbackWaitForCompletion cctx .timedOut) = none := by
  refine ⟨rfl, rfl, rfl, rfl, rfl, ?_, rfl, rfl, rfl, rfl, ?_⟩ <;>
    simp [llmGenerateStreamReturn, llmGenerateStreamWithCallbackReturn,
      streamWaitForCompletion, streamCallbackWaitForCompletion]

-- ===========================================================================
-- JNI layer: canonical JSON for model and LoRA entries (C6)
-- ===========================================================================

/-- `rac_model_info_t` as the JNI serializer reads it: enums as their integer
values, nullable strings as `Option`. -/
structure ModelInfo where
  id : Option String
  name : Option String
  category : Int
  format : Int
  framework : Int
  download_url : Option String
  local_path : Option String
  download_size : Int
  context_length : Int
  supports_thinking : Bool
  supports_lora : Bool
  description : Option String
  deriving DecidableEq, Repr

/-- `modelInfoToJson` (lines 1933-1951) on a non-null model (a null model
serializes as the literal document "null"): the sequence of `j[key] = value`
assignments.  A null `id` or `name` falls back to the empty string, while
`download_url`, `local_path` and `description` serialize null pointers as
JSON null. -/
def modelInfoToJson (m : ModelInfo) : List (String × JField) :=
  [("model_id", .jstr (m.id.getD "")),
   ("name", .jstr (m.name.getD "")),
   ("category", .jint m.category),
   ("format", .jint m.format),
   ("framework", .jint m.framework),
   ("download_url", match m.download_url with | none => .jnull | some s => .jstr s),
   ("local_path", match m.local_path with | none => .jnull | some s => .jstr s),
   ("download_size", .jint m.download_size),
   ("context_length", .jint m.context_length),
   ("supports_thinking", .jbool m.supports_thinking),
   ("supports_lora", .jbool m.supports_lora),
   ("description", match m.description with | none => .jnull | some s => .jstr s)]

/-- `loraEntryToJson` (lines 1953-1972) on a non-null entry: every null
string field falls back to the empty string, and null elements of
`compatible_model_ids` are skipped. -/
def loraEntryToJson (e : LoraEntry) : List (String × JField) :=
  [("id", .jstr (e.id.getD "")),
   ("name", .jstr (e.name.getD "")),
   ("description", .jstr (e.description.getD "")),
   ("download_url", .jstr (e.download_url.getD "")),
   ("filename", .jstr (e.filename.getD "")),
   ("file_size", .jint e.file_size),
   ("default_scale", .jfloat e.default_scale),
   ("compatible_model_ids", .jstrarr (e.modelIdsList.filterMap id))]

/-- The value a serialized document holds at a key. -/
def jsonField (doc : List (String × JField)) (k : String) : Option JField :=
  (doc.find? (fun p => p.1 == k)).map Prod.snd

def cexLora : LoraEntry :=
  { id := some "lx", name := some "n", description := none, download_url := none,
    filename := none, compatible_model_ids := none, file_size := 0,
    default_scale := 0 }

/-- C6 counterexample: a LoRA entry with a null `description` serializes that
field as the empty string, not as JSON null. -/
theorem nullable_string_null_serialization_counterexample :
    cexLora.description = none ∧
    jsonField (loraEntryToJson cexLora) "description" = some (.jstr "") ∧
    JField.jstr "" ≠ JField.jnull :=
  ⟨rfl, rfl, by decide⟩

/-- C6 amended: only `download_url`, `local_path` and `description` of the
model-entry document serialize absent values as JSON null; the model id and
name, and every nullable string field of the LoRA-entry document, fall back
to the empty string instead. -/
theorem nullable_string_serialization (m : ModelInfo) (e : LoraEntry) :
    jsonField (modelInfoToJson m) "download_url" =
      some (match m.download_url with | none => .jnull | some s => .jstr s) ∧
    jsonField (modelInfoToJson m) "local_path" =
      some (match m.local_path with | none => .jnull | some s => .jstr s) ∧
    jsonField (modelInfoToJson m) "description" =
      some (match m.description with | none => .jnull | some s => .jstr s) ∧
    jsonField (modelInfoToJson m) "model_id" = some (.jstr (m.id.getD "")) ∧
    jsonField (modelInfoToJson m) "name" = some (.jstr (m.name.getD "")) ∧
    jsonField (loraEntryToJson e) "id" = some (.jstr (e.id.getD "")) ∧
    jsonField (loraEntryToJson e) "name" = some (.jstr (e.name.getD "")) ∧
    jsonField (loraEntryToJson e) "description" =
      some (.jstr (e.description.getD "")) ∧
    jsonField (loraEntryToJson e) "download_url" =
      some (.jstr (e.download_url.getD "")) ∧
    jsonField (loraEntryToJson e) "filename" = some (.jstr (e.filename.getD "")) :=
  ⟨rfl, rfl, rfl, rfl, rfl, rfl, rfl, rfl, rfl, rfl⟩

-- ===========================================================================
-- JNI layer: racToolCallParse (C8)
-- ===========================================================================

/-- `rac_tool_call_t` as `racToolCallParse` reads it after calling the (out of
scope) core parser `rac_tool_call_parse`. -/
structure RacToolCall where
  has_tool_call : Bool
  clean_text : Option String
  tool_name : Option String
  arguments_json : Option String
  call_id : Int
  deriving DecidableEq, Repr

/-- One branch of the `switch` escaping `clean_text` (lines 3501-3507): what
the source appends to the response for one character. -/
def escapeCleanChar (c : Char) : String :=
  if c = '"' then "\\\""
  else if c = '\\' then "\\\\"
  else if c = '\n' then "\\n"
  else if c = '\r' then "\\r"
  else if c = '\t' then "\\t"
  else String.singleton c

/-- The escaping loop over `clean_text` (lines 3500-3509), appending one
escaped character at a time, left to right. -/
def escapeCleanText (s : String) : String :=
  s.toList.foldl (fun acc c => acc ++ escapeCleanChar c) ""

/-- The opening curly brace character (0x7b). -/
def openBraceChar : Char := Char.ofNat 123

/-- The opening square bracket character (0x5b). -/
def openBracketChar : Char := Char.ofNat 91

/-- The whitespace set of `find_first_not_of(" \t\n\r")` (line 3522). -/
def jsonWsChars : List Char := [' ', '\t', '\n', '\r']

/-- The `arguments_json` validation of `racToolCallParse` (lines 3517-3533):
skip the leading whitespace-set characters; if a first remaining character
exists and is an opening brace or bracket, the original string is inserted
unchanged; otherwise — no such character, any other first character, or a
null pointer — the literal empty-object text is substituted. -/
def validatedArgumentsFragment (args : Option String) : String :=
  match args with
  | none => "\x7b\x7d"
  | some s =>
    match s.toList.dropWhile (fun c => jsonWsChars.contains c) with
    | [] => "\x7b\x7d"
    | c :: _ => if c = openBraceChar || c = openBracketChar then s else "\x7b\x7d"

/-- The response document `racToolCallParse` assembles (lines 3493-3541). -/
def racToolCallParseJson (tc : RacToolCall) : String :=
  "\x7b\"hasToolCall\":" ++ (if tc.has_tool_call then "true" else "false") ++
  ",\"cleanText\":\"" ++
  (match tc.clean_text with | none => "" | some s => escapeCleanText s) ++ "\"" ++
  (if tc.has_tool_call then
    ",\"toolName\":\"" ++ (tc.tool_name.getD "") ++ "\",\"argumentsJson\":" ++
    validatedArgumentsFragment tc.arguments_json ++ ",\"callId\":" ++
    toString tc.call_id
   else "") ++ "\x7d"

/-- The acceptance condition in the spec's words, stated independently of the
parser code: after stripping leading whitespace, the first non-whitespace
character is an opening brace or bracket. -/
def specArgsAccepted (s : String) : Bool :=
  match s.toList.dropWhile Char.isWhitespace with
  | [] => false
  | c :: _ => c = openBraceChar || c = openBracketChar

theorem jsonWsChars_contains_eq_isWhitespace (c : Char) :
    jsonWsChars.contains c = c.isWhitespace := by
  rw [Bool.eq_iff_iff]
  simp [jsonWsChars, Char.isWhitespace]
  tauto

/-- C8. Whenever the parsed result reports a tool call, the inserted
`argumentsJson` fragment is exactly: the original `arguments_json` string
unchanged when its first non-whitespace character is an opening brace or
bracket, and the literal empty-object text otherwise (including for a null or
whitespace-only string); the assembled response document always embeds that
fragment between the `argumentsJson` and `callId` keys, so the parse as a
whole still succeeds after a substitution. -/
theorem toolcall_arguments_validated (tc : RacToolCall)
    (h : tc.has_tool_call = true) :
    (∀ s, tc.arguments_json = some s →
      validatedArgumentsFragment tc.arguments_json =
        (if specArgsAccepted s then s else "\x7b\x7d")) ∧
    (tc.arguments_json = none →
      validatedArgumentsFragment tc.arguments_json = "\x7b\x7d") ∧
    racToolCallParseJson tc =
      "\x7b\"hasToolCall\":" ++ "true" ++ ",\"cleanText\":\"" ++
      (match tc.clean_text with | none => "" | some s => escapeCleanText s) ++ "\"" ++
      (",\"toolName\":\"" ++ (tc.tool_name.getD "") ++ "\",\"argumentsJson\":" ++
       validatedArgumentsFragment tc.arguments_json ++ ",\"callId\":" ++
       toString tc.call_id) ++ "\x7d" := by
  refine ⟨?_, ?_, ?_⟩
  · intro s hs
    rw [hs]
    have hws : (fun c => jsonWsChars.contains c) = Char.isWhitespace :=
      funext jsonWsChars_contains_eq_isWhitespace
    rw [validatedArgumentsFragment, specArgsAccepted, hws]
    cases hd : s.toList.dropWhile Char.isWhitespace with
    | nil => rfl
    | cons c rest =>
      by_cases hc : (c = openBraceChar ∨ c = openBracketChar)
      · simp [hc]
      · simp at hc
        simp [hc]
  · intro hn
    rw [hn]
    rfl
  · rw [racToolCallParseJson, h]
    simp

def cToolCall : RacToolCall :=
  { has_tool_call := true, clean_text := some "use the tool",
    tool_name := some "lookup", arguments_json := some "  \x7b\"a\":1\x7d",
    call_id := 1 }

theorem toolcall_arguments_validated_witness :
    validatedArgumentsFragment cToolCall.arguments_json =
      (if specArgsAccepted "  \x7b\"a\":1\x7d" then "  \x7b\"a\":1\x7d"
       else "\x7b\x7d") :=
  (toolcall_arguments_validated cToolCall rfl).1 "  \x7b\"a\":1\x7d" rfl
